import Mathlib

/-!
Shallow embedding of the boon-support ticket router and its persistence
layer (`support_bot/db.py`, `support_bot/handlers.py`,
`support_bot/informing.py`, `support_bot/buttons.py`).

The MySQL table `boom_tickets` is modelled as a list of `Ticket` rows
together with the autoincrement counter; every repository method of
`TicketRepo` and `SqlBoomUser` becomes a pure function on that state.
The aiogram handlers become functions from the database state and the
inbound event's data to the new database state plus a list of observable
effects (messages sent, forwards, log records).
-/

namespace BoonSupport

/-- Row of the `boom_tickets` table (`BoomTickets` model / `Ticket`
dataclass in `db.py`).  Timestamps are abstracted as naturals. -/
structure Ticket where
  id : Nat
  telegram_id : Int
  user_id : Option Int
  thread_id : Option Int
  subject : Option String
  store_id : Option String
  category : String
  order_number : Option String
  description : String
  branch : String
  status : String
  rating : Option Int
  is_closed : Bool
  created_at : Nat
  closed_at : Option Nat
deriving DecidableEq, Repr

/-- Row of the `boom_users` table (`BoomUser` dataclass in `db.py`). -/
structure BoomUser where
  id : Int
  name : Option String
  phone : Option String
  telegram_id : Option Int
deriving DecidableEq, Repr

/-- State of the ticket store: the rows of `boom_tickets` in insertion
order, plus the next value of the autoincrement primary key. -/
structure TicketDb where
  tickets : List Ticket
  nextId : Nat
deriving DecidableEq, Repr

/-- The empty store; MySQL autoincrement starts at 1. -/
def initDb : TicketDb := { tickets := [], nextId := 1 }

/-- Generic `UPDATE boom_tickets SET ... WHERE id = i`: apply `g` to every
row whose id matches. -/
def updTicket (db : TicketDb) (i : Nat) (g : Ticket → Ticket) : TicketDb :=
  { db with tickets := db.tickets.map fun t => if t.id == i then g t else t }

/-- `TicketRepo.create`: insert a new row.  Column defaults from the model:
`status='open'`, `is_closed=False`, `created_at=now()`, `closed_at` null,
`rating` null.  Returns `lastrowid` and the new state. -/
def create (db : TicketDb) (telegramId : Int) (userId : Option Int)
    (category : String) (orderNumber : Option String)
    (description : String) (branch : String)
    (threadId : Option Int) (subject : Option String)
    (storeId : Option String) (now : Nat) : Nat × TicketDb :=
  let t : Ticket :=
    { id := db.nextId, telegram_id := telegramId, user_id := userId,
      thread_id := threadId, subject := subject, store_id := storeId,
      category := category, order_number := orderNumber,
      description := description, branch := branch, status := "open",
      rating := none, is_closed := false, created_at := now,
      closed_at := none }
  (db.nextId, { tickets := db.tickets ++ [t], nextId := db.nextId + 1 })

/-- Row transformation performed by `TicketRepo.update_status`: set the
status; when it is `'closed'` also set `is_closed` and `closed_at`
(explicit timestamp, or `now()` when none was given); when it is `'open'`
or `'reopened'` clear them; any other status touches nothing else. -/
def applyStatus (status : String) (closedAt : Option Nat) (now : Nat)
    (t : Ticket) : Ticket :=
  let t1 := { t with status := status }
  if status == "closed" then
    { t1 with is_closed := true, closed_at := some (closedAt.getD now) }
  else if status == "open" || status == "reopened" then
    { t1 with is_closed := false, closed_at := none }
  else t1

/-- `TicketRepo.update_status`. -/
def update_status (db : TicketDb) (i : Nat) (status : String)
    (closedAt : Option Nat) (now : Nat) : TicketDb :=
  updTicket db i (applyStatus status closedAt now)

/-- Row transformation performed by `TicketRepo.close_ticket`. -/
def applyClose (now : Nat) (t : Ticket) : Ticket :=
  { t with is_closed := true, status := "closed", closed_at := some now }

/-- `TicketRepo.close_ticket`: `SET is_closed=True, status='closed',
closed_at=now()`. -/
def close_ticket (db : TicketDb) (i : Nat) (now : Nat) : TicketDb :=
  updTicket db i (applyClose now)

/-- Row transformation performed by `TicketRepo.update_rating`. -/
def applyRating (rating : Int) (now : Nat) (t : Ticket) : Ticket :=
  { t with rating := some rating, is_closed := true, status := "closed",
           closed_at := some now }

/-- `TicketRepo.update_rating`: store the rating and re-assert closure. -/
def update_rating (db : TicketDb) (i : Nat) (rating : Int) (now : Nat) :
    TicketDb :=
  updTicket db i (applyRating rating now)

/-- `TicketRepo.update_thread_subject`: unconditionally
`SET thread_id=..., subject=... WHERE id=...`. -/
def update_thread_subject (db : TicketDb) (i : Nat) (threadId : Int)
    (subject : String) : TicketDb :=
  updTicket db i fun t =>
    { t with thread_id := some threadId, subject := some subject }

/-- `TicketRepo.get_by_id`. -/
def get_by_id (db : TicketDb) (i : Nat) : Option Ticket :=
  db.tickets.find? fun t => t.id == i

/-- `TicketRepo.find_by_thread_id`. -/
def find_by_thread_id (db : TicketDb) (threadId : Int) : Option Ticket :=
  db.tickets.find? fun t => t.thread_id == some threadId

/-- The `WHERE` clause of `TicketRepo.find_last_open_by_user`:
`telegram_id = tid AND is_closed = FALSE AND status IN ('open','reopened')`. -/
def lastOpenPred (tid : Int) (t : Ticket) : Bool :=
  t.telegram_id == tid && t.is_closed == false &&
    (t.status == "open" || t.status == "reopened")

/-- `TicketRepo.find_last_open_by_user`: the matching row with the
greatest `created_at` (`ORDER BY created_at DESC LIMIT 1`). -/
def find_last_open_by_user (db : TicketDb) (tid : Int) : Option Ticket :=
  (db.tickets.filter (lastOpenPred tid)).argmax (fun t => t.created_at)

/-- Python's `str.isdigit` on the character list of a string: non-empty
and all digits. -/
def pyIsDigit (l : List Char) : Bool :=
  !l.isEmpty && l.all (·.isDigit)

/-- The validation in `SqlBoomUser.find_by_phone`:
`phone.startswith('+') and phone[1:].isdigit() or phone.isdigit()`
(Python precedence: `(A and B) or C`). -/
def validPhoneFormat (phone : String) : Bool :=
  (phone.data.head? == some '+' && pyIsDigit phone.data.tail) ||
    pyIsDigit phone.data

/-- `phone.lstrip('+')`: drop every leading `'+'`. -/
def lstripPlus (phone : String) : String :=
  ⟨phone.data.dropWhile (· == '+')⟩

/-- The key `find_by_phone` uses for the SQL lookup, `none` when the
`ValueError` is raised before the connection is opened. -/
def phoneLookupKey (phone : String) : Option String :=
  if validPhoneFormat phone then some (lstripPlus phone) else none

/-- `SqlBoomUser.find_by_phone` over the `boom_users` rows: validate,
normalize, then select by phone.  The `Except.error` case corresponds to
the `ValueError` raised before `engine.begin()` is entered. -/
def find_by_phone (users : List BoomUser) (phone : String) :
    Except String (Option BoomUser) :=
  match phoneLookupKey phone with
  | none => .error "Invalid phone format"
  | some key => .ok (users.find? fun u => u.phone == some key)

/-- Outcome of one invocation of a function wrapped by
`retry_on_disconnect`: return a value, raise an
`OperationalError`/`DBAPIError` with a given message, or raise some other
exception (not caught by the wrapper). -/
inductive Attempt (α : Type) where
  | ok (a : α)
  | dbErr (msg : String)
  | otherExn (msg : String)
deriving DecidableEq, Repr

/-- Whether the first list is an initial segment of the second. -/
def leadsWith : List Char → List Char → Bool
  | [], _ => true
  | _ :: _, [] => false
  | c :: cs, d :: ds => c == d && leadsWith cs ds

/-- Whether `pat` occurs contiguously inside the second list. -/
def containsSeq (pat : List Char) : List Char → Bool
  | [] => pat.isEmpty
  | c :: rest => leadsWith pat (c :: rest) || containsSeq pat rest

/-- Substring test, modelling Python's `pat in s`. -/
def hasSub (s pat : String) : Bool :=
  containsSeq pat.data s.data

/-- The connection-error classification inside `retry_on_disconnect`:
`'2013' in error_msg or 'Lost connection' in error_msg or
'2006' in error_msg`. -/
def isConnErrorMsg (m : String) : Bool :=
  hasSub m "2013" || hasSub m "Lost connection" || hasSub m "2006"

/-- Observable trace of one call through the `retry_on_disconnect`
wrapper: the final outcome, the `asyncio.sleep` durations performed (in
units of the base delay's time scale), and how many times the wrapped
function was invoked. -/
structure RetryTrace (α : Type) where
  result : Attempt α
  sleeps : List Nat
  calls : Nat
deriving DecidableEq, Repr

/-- The `for attempt in range(max_retries)` loop of `retry_on_disconnect`.
`f k` is the outcome of the `k`-th invocation of the wrapped function
(0-based); the fuel equals the remaining loop iterations.  A connection
error at attempt `< max_retries - 1` sleeps `delay * (attempt + 1)` and
continues; every other exception is re-raised at once.  The fuel-0 result
models the `raise last_error` after the loop, reachable only when
`max_retries = 0`. -/
def retryLoop (f : Nat → Attempt α) (delay maxRetries : Nat) :
    Nat → Nat → RetryTrace α
  | _, 0 => ⟨.otherExn "last_error", [], 0⟩
  | attempt, fuel + 1 =>
    match f attempt with
    | .ok a => ⟨.ok a, [], 1⟩
    | .otherExn m => ⟨.otherExn m, [], 1⟩
    | .dbErr m =>
      if isConnErrorMsg m && decide (attempt < maxRetries - 1) then
        let r := retryLoop f delay maxRetries (attempt + 1) fuel
        ⟨r.result, delay * (attempt + 1) :: r.sleeps, r.calls + 1⟩
      else ⟨.dbErr m, [], 1⟩

/-- The `retry_on_disconnect(max_retries, delay)` wrapper applied to a
function whose successive invocations produce `f 0, f 1, ...`. -/
def retry_on_disconnect (maxRetries delay : Nat) (f : Nat → Attempt α) :
    RetryTrace α :=
  retryLoop f delay maxRetries 0 maxRetries

/-- Every repository method is decorated with
`retry_on_disconnect(max_retries=3)`; `delay` keeps its default. -/
def repoRetry (delay : Nat) (f : Nat → Attempt α) : RetryTrace α :=
  retry_on_disconnect 3 delay f

/-- Result of the transport-level `msg.forward(...)` call in
`user_message`: success, `TelegramBadRequest`, `TelegramForbiddenError`,
or any other exception. -/
inductive ForwardOutcome where
  | ok
  | badRequest
  | forbidden
  | otherFail
deriving DecidableEq, Repr

/-- Observable effects of one `user_message` invocation. -/
inductive UMEvent where
  /-- Ticket created, thread created and bound, acknowledgment sent,
  transient conversation state cleared. -/
  | ticketCreated (ticketId : Nat) (threadId : Int) (subject : String)
  /-- Ticket row was created but `_create_ticket_thread` raised, so the
  handler aborted before `update_thread_subject`. -/
  | threadCreateFailed (ticketId : Nat)
  /-- No open ticket: "Чтобы создать новое обращение ... /start". -/
  | askStart
  /-- Log record of the self-healing reopen branch. -/
  | reopened (ticketId : Nat)
  /-- Ticket has no bound thread: routing-error notice to the user. -/
  | noThreadNotice
  /-- Message forwarded into the bound thread. -/
  | forwarded (threadId : Int)
  /-- `TelegramBadRequest` during forwarding: notice to the user. -/
  | badRequestNotice
  /-- `TelegramForbiddenError` during forwarding: notice to the user. -/
  | forbiddenNotice
  /-- Any other forwarding error: notice to the user. -/
  | otherFailNotice
deriving DecidableEq, Repr

/-- Render an optional value the way a Python f-string renders it. -/
def pyStr (o : Option String) : String := o.getD "None"

/-- The FSM state name `SupportFlow.description`. -/
def descriptionState : String := "SupportFlow:description"

/-- The `user_message` handler (`handlers.py`).  Inputs mirror the data
the handler reads: the sender id, the `boom_users` lookup result, the
sender's display name, the FSM state name and its `category`/`order`
data, the message text, the `store_id` obtained from
`get_order_by_number` and the title from `get_store_title`, the thread id
returned by `_create_ticket_thread` (`none` when it raises), and the
outcome of the forward call.  Returns the new ticket store and the
observable effects. -/
def user_message (db : TicketDb) (sender : Int) (user : Option BoomUser)
    (fullName : String) (stateName : Option String)
    (categoryData orderData msgText : Option String)
    (orderStoreId : Option String) (storeTitleDb : Option String)
    (threadCreate : Option Int) (fwd : ForwardOutcome) (now : Nat) :
    TicketDb × List UMEvent :=
  let userId : Option Int := user.map (·.id)
  let branch : String :=
    match user with
    | some u =>
      match u.phone with
      | some ph => if ph.startsWith "7" then "Россия" else "Неизвестно"
      | none => "Неизвестно"
    | none => "Неизвестно"
  let ticket0 := find_last_open_by_user db sender
  if stateName == some descriptionState && ticket0.isNone then
    let category := categoryData.getD "unknown"
    let orderNumber := orderData.getD "не указан"
    let description := msgText.getD "No text"
    let doLookup :=
      orderNumber != "" && orderNumber != "не указан" && userId.isSome
    let storeId := if doLookup then orderStoreId else none
    let storeTitle := if doLookup && storeId.isSome then storeTitleDb
      else none
    let (tid, db1) := create db sender userId category
      (if orderNumber == "не указан" then none else some orderNumber)
      description branch none none storeId now
    let nameStr : String :=
      match user with
      | some u => if u.name != some "Гость" then pyStr u.name else fullName
      | none => fullName
    let displayNameWithId := s!"№{tid} | {nameStr}"
    let subject :=
      if userId.isSome then
        let parts :=
          (match storeTitle with | some st => [st] | none => []) ++
          (if orderNumber != "" && orderNumber != "не указан" then
             [orderNumber] else []) ++
          [displayNameWithId]
        String.intercalate ": " parts
      else
        s!"Незарегистрированный пользователь: {displayNameWithId} ({category})"
    match threadCreate with
    | none => (db1, [.threadCreateFailed tid])
    | some th =>
      let db2 := update_thread_subject db1 tid th subject
      (db2, [.ticketCreated tid th subject])
  else
    match find_last_open_by_user db sender with
    | none => (db, [.askStart])
    | some t =>
      let reopenStep :=
        if t.is_closed || t.status == "closed" then
          (update_status db t.id "reopened" none now,
           [UMEvent.reopened t.id])
        else (db, [])
      let db1 := reopenStep.1
      let ev1 := reopenStep.2
      match t.thread_id with
      | none => (db1, ev1 ++ [.noThreadNotice])
      | some th =>
        match fwd with
        | .ok => (db1, ev1 ++ [.forwarded th])
        | .badRequest => (db1, ev1 ++ [.badRequestNotice])
        | .forbidden => (db1, ev1 ++ [.forbiddenNotice])
        | .otherFail => (db1, ev1 ++ [.otherFailNotice])

/-- Observable effects of one `cmd_close_ticket` invocation. -/
inductive CloseEvent where
  /-- "/close must be used inside a ticket topic". -/
  | needThread
  /-- "Тикет не найден для этой темы". -/
  | noTicketForThread
  /-- "Тикет №... уже закрыт" — idempotent notice, nothing written. -/
  | alreadyClosed (ticketId : Nat)
  /-- Staff acknowledgment after `close_ticket` succeeded. -/
  | closedAck
  /-- Closure-survey prompt delivered to the ticket's user. -/
  | surveySent (userTelegramId : Int) (ticketId : Nat)
  /-- Survey delivery raised: logged, staff notified. -/
  | surveySendFailed (userTelegramId : Int)
deriving DecidableEq, Repr

/-- The `cmd_close_ticket` handler (`handlers.py`): the staff `/close`
command inside a thread.  `sendOk` is whether the survey message to the
user succeeds. -/
def cmd_close_ticket (db : TicketDb) (threadIdOpt : Option Int)
    (now : Nat) (sendOk : Bool) : TicketDb × List CloseEvent :=
  match threadIdOpt with
  | none => (db, [.needThread])
  | some th =>
    match find_by_thread_id db th with
    | none => (db, [.noTicketForThread])
    | some t =>
      if t.is_closed then (db, [.alreadyClosed t.id])
      else
        let db1 := close_ticket db t.id now
        (db1, [CloseEvent.closedAck] ++
          (if sendOk then [CloseEvent.surveySent t.telegram_id t.id]
           else [CloseEvent.surveySendFailed t.telegram_id]))

/-- Database effect of `handle_closure_confirmation` (`handlers.py`):
`closure_yes` writes nothing (it only closes the forum topic and edits
messages); `closure_no` runs `update_status(ticket_id, 'reopened')`
unconditionally once the ticket is found. -/
def handle_closure_confirmation (db : TicketDb) (ticketId : Nat)
    (resolvedYes : Bool) (now : Nat) : TicketDb :=
  match get_by_id db ticketId with
  | none => db
  | some _ =>
    if resolvedYes then db
    else update_status db ticketId "reopened" none now

/-- Database effect of `handle_rating` (`handlers.py`): an unconditional
`update_rating`. -/
def handle_rating (db : TicketDb) (ticketId : Nat) (rating : Int)
    (now : Nat) : TicketDb :=
  update_rating db ticketId rating now

/-- Database effect of `handle_close` (`buttons.py`): an unconditional
`update_status(ticket_id, 'closed', now)`. -/
def handle_close (db : TicketDb) (ticketId : Nat) (now : Nat) : TicketDb :=
  update_status db ticketId "closed" (some now) now

/-- One inbound event of the system, carrying everything the
corresponding handler reads from the outside world. -/
inductive Op where
  /-- A private-chat message dispatched to `user_message`. -/
  | userMsg (sender : Int) (user : Option BoomUser) (fullName : String)
      (stateName : Option String)
      (categoryData orderData msgText : Option String)
      (orderStoreId storeTitleDb : Option String)
      (threadCreate : Option Int) (fwd : ForwardOutcome) (now : Nat)
  /-- A staff `/close` command dispatched to `cmd_close_ticket`. -/
  | staffClose (threadIdOpt : Option Int) (sendOk : Bool) (now : Nat)
  /-- A closure-survey button press dispatched to
  `handle_closure_confirmation`. -/
  | closureConfirm (ticketId : Nat) (resolvedYes : Bool) (now : Nat)
  /-- A rating button press dispatched to `handle_rating`. -/
  | rate (ticketId : Nat) (rating : Int) (now : Nat)
  /-- The admin "Закрыть" button dispatched to `handle_close`. -/
  | adminClose (ticketId : Nat) (now : Nat)
deriving DecidableEq, Repr

/-- Database transition of one inbound event. -/
def stepOp (db : TicketDb) (op : Op) : TicketDb :=
  match op with
  | .userMsg sender user fullName stateName cat ord txt osid stt tc fwd n =>
    (user_message db sender user fullName stateName cat ord txt osid stt
      tc fwd n).1
  | .staffClose th ok n => (cmd_close_ticket db th n ok).1
  | .closureConfirm i yes n => handle_closure_confirmation db i yes n
  | .rate i r n => handle_rating db i r n
  | .adminClose i n => handle_close db i n

/-- Run a sequence of inbound events. -/
def runOps (db : TicketDb) (ops : List Op) : TicketDb :=
  ops.foldl stepOp db

/-- An event reopens a ticket through the closure survey exactly when it
is a `closure_no` button press on an existing ticket. -/
def Op.isSurveyReopen : Op → Bool
  | .closureConfirm _ yes _ => !yes
  | _ => false

/-- Per-conversation transient state held by the aiogram `FSMContext`:
the state name and the `category`/`order`/`orders_map` data. -/
structure ConvState where
  stateName : Option String
  data : List (String × String)
deriving DecidableEq, Repr

/-- An exception escaping a handler, as classified by the `handle_error`
decorator (`informing.py`): `TelegramForbiddenError`,
`TelegramBadRequest`, or anything else. -/
inductive HandlerExc where
  | forbidden (msg : String)
  | badRequest (msg : String)
  | other (msg : String)
deriving DecidableEq, Repr

/-- An action performed by the `handle_error` boundary itself. -/
inductive BoundaryAction where
  /-- A message into the admin group (`report_user_ban`,
  `report_cant_create_topic`). -/
  | sendToAdminGroup (text : String)
  /-- A `bot.log_error` record. -/
  | logError (msg : String)
  /-- A message to the end user.  Present so the specification can be
  stated; `handle_error` never produces it. -/
  | sendToUser (text : String)
deriving DecidableEq, Repr

/-- Whether a boundary action is a message to the end user. -/
def BoundaryAction.isUserNotice : BoundaryAction → Bool
  | .sendToUser _ => true
  | _ => false

/-- Actions of the `handle_error` decorator once a handler raised
`exc`.  `fromAdminMessage` is whether the wrapped handler is
`admin_message` (`report_user_ban` only reports in that case). -/
def handleErrorActions (fromAdminMessage : Bool) (exc : HandlerExc) :
    List BoundaryAction :=
  match exc with
  | .forbidden _ =>
    if fromAdminMessage then
      [.sendToAdminGroup "The user banned the bot."]
    else []
  | .badRequest m =>
    if hasSub m "not enough rights to create a topic" then
      [.sendToAdminGroup "the bot has not enough rights to create a topic"]
    else []
  | .other m => [.logError m]

/-- The `handle_error` wrapper around one handler invocation: the
handler either returned normally or raised; in both cases the
conversation transient state the handler left behind is passed through
unchanged, and the wrapper only adds its own actions. -/
def handle_error (fromAdminMessage : Bool) (st : ConvState)
    (outcome : Option HandlerExc) : ConvState × List BoundaryAction :=
  match outcome with
  | none => (st, [])
  | some exc => (st, handleErrorActions fromAdminMessage exc)

/-- A ticket counts as open for the uniqueness invariant when its status
is `open` or `reopened`. -/
def openPred (tid : Int) (t : Ticket) : Bool :=
  t.telegram_id == tid && (t.status == "open" || t.status == "reopened")

/-- Number of open-or-reopened tickets of one conversation identity. -/
def openCount (db : TicketDb) (tid : Int) : Nat :=
  db.tickets.countP (openPred tid)

/-- Consistency of the two closure encodings of a row: `is_closed` holds
exactly when the status is `closed`. -/
def wfDb (db : TicketDb) : Prop :=
  ∀ t ∈ db.tickets, t.is_closed = (t.status == "closed")

/-- Every stored id is below the autoincrement counter. -/
def idsBound (db : TicketDb) : Prop :=
  ∀ t ∈ db.tickets, t.id < db.nextId

/-- Concrete open ticket used to exercise the lookup and close paths. -/
def sampleOpenTicket : Ticket :=
  { id := 1, telegram_id := 100, user_id := none, thread_id := some 7,
    subject := some "s", store_id := none, category := "c",
    order_number := none, description := "d", branch := "b",
    status := "open", rating := none, is_closed := false,
    created_at := 1, closed_at := none }

/-- Store holding just `sampleOpenTicket`. -/
def sampleDbOpen : TicketDb := { tickets := [sampleOpenTicket], nextId := 2 }

/-- Concrete closed ticket bound to thread 7, as in the spec's reopen
scenario (staff closed ticket #42 bound to thread 7). -/
def closedTicket42 : Ticket :=
  { id := 42, telegram_id := 100, user_id := none, thread_id := some 7,
    subject := some "s", store_id := none, category := "c",
    order_number := none, description := "d", branch := "b",
    status := "closed", rating := none, is_closed := true,
    created_at := 1, closed_at := some 2 }

/-- Store holding just `closedTicket42`. -/
def dbClosed42 : TicketDb := { tickets := [closedTicket42], nextId := 43 }

/-- A `user_message` event that completes intake for sender 100 (guest,
category "Другой вопрос") and binds the fresh ticket to the given
thread. -/
def intakeOp (threadId : Int) (now : Nat) : Op :=
  .userMsg 100 none "Ann" (some descriptionState) (some "Другой вопрос")
    none (some "broken") none none (some threadId) .ok now

/-- Event trace violating the one-open-ticket invariant: complete intake
(ticket 1, thread 10), staff closes it, complete intake again (ticket 2,
thread 11), then press "not resolved" on the closure survey of
ticket 1. -/
def twoOpenTrace : List Op :=
  [intakeOp 10 1, .staffClose (some 10) true 2, intakeOp 11 3,
   .closureConfirm 1 false 4]

theorem find_last_open_mem {db : TicketDb} {tid : Int} {t : Ticket}
    (h : find_last_open_by_user db tid = some t) :
    t ∈ db.tickets.filter (lastOpenPred tid) :=
  List.argmax_mem (Option.mem_def.mpr h)

theorem find_last_open_props {db : TicketDb} {tid : Int} {t : Ticket}
    (h : find_last_open_by_user db tid = some t) :
    t.telegram_id = tid ∧ t.is_closed = false ∧
      (t.status = "open" ∨ t.status = "reopened") := by
  have hm := find_last_open_mem h
  rw [List.mem_filter] at hm
  have hp := hm.2
  unfold lastOpenPred at hp
  simp only [Bool.and_eq_true, Bool.or_eq_true, beq_iff_eq] at hp
  exact ⟨hp.1.1, hp.1.2, hp.2⟩

theorem find_last_open_guard_false {db : TicketDb} {tid : Int} {t : Ticket}
    (h : find_last_open_by_user db tid = some t) :
    (t.is_closed || t.status == "closed") = false := by
  obtain ⟨-, hcl, hst⟩ := find_last_open_props h
  rw [hcl]
  rcases hst with hs | hs <;> rw [hs] <;> decide

theorem find_last_open_none_iff {db : TicketDb} {tid : Int} :
    find_last_open_by_user db tid = none ↔
      ∀ t ∈ db.tickets, lastOpenPred tid t = false := by
  unfold find_last_open_by_user
  rw [List.argmax_eq_none, List.filter_eq_nil_iff]
  constructor
  · intro h t ht
    exact Bool.eq_false_iff.mpr (h t ht)
  · intro h t ht
    exact Bool.eq_false_iff.mp (h t ht)

/-- C10.  Any ticket returned by `TicketRepo.find_last_open_by_user`
satisfies `is_closed = false` and `status ∈ {open, reopened}`; in
particular the caller's closed-ticket branch condition
`ticket.is_closed or ticket.status == "closed"` is false for it, so that
branch can never be taken on a returned ticket. -/
theorem c10_last_open_never_closed (db : TicketDb) (tid : Int) (t : Ticket)
    (h : find_last_open_by_user db tid = some t) :
    t.is_closed = false ∧ (t.status = "open" ∨ t.status = "reopened") ∧
      (t.is_closed || t.status == "closed") = false := by
  obtain ⟨-, hcl, hst⟩ := find_last_open_props h
  exact ⟨hcl, hst, find_last_open_guard_false h⟩

theorem c10_last_open_never_closed_witness :
    sampleOpenTicket.is_closed = false ∧
      (sampleOpenTicket.status = "open" ∨
        sampleOpenTicket.status = "reopened") ∧
      (sampleOpenTicket.is_closed || sampleOpenTicket.status == "closed")
        = false :=
  c10_last_open_never_closed sampleDbOpen 100 sampleOpenTicket (by decide)

theorem digit_not_plus {c : Char} (h : c.isDigit = true) :
    (c == '+') = false := by
  cases hcp : (c == '+') with
  | false => rfl
  | true =>
    rw [beq_iff_eq] at hcp
    subst hcp
    exact absurd h (by decide)

theorem lstrip_of_valid_plus (p : String)
    (hv : validPhoneFormat p = true) (hp : p.data.head? = some '+') :
    (lstripPlus p).data = p.data.tail := by
  unfold validPhoneFormat at hv
  cases hd : p.data with
  | nil => rw [hd] at hp; exact absurd hp (by simp)
  | cons c rest =>
    rw [hd] at hp
    simp only [List.head?] at hp
    have hc : c = '+' := by injection hp
    subst hc
    rw [hd] at hv
    have hplus : Char.isDigit '+' = false := by decide
    have hrest : pyIsDigit rest = true := by
      simp only [Bool.or_eq_true, Bool.and_eq_true] at hv
      rcases hv with ⟨-, h1⟩ | h2
      · exact h1
      · unfold pyIsDigit at h2
        simp only [Bool.and_eq_true] at h2
        obtain ⟨-, hall⟩ := h2
        rw [List.all_eq_true] at hall
        have := hall '+' (List.mem_cons_self _ _)
        rw [hplus] at this
        exact absurd this (by decide)
    unfold lstripPlus
    rw [hd]
    simp only [List.dropWhile_cons, beq_self_eq_true, if_pos rfl,
      List.tail_cons]
    cases rest with
    | nil => exact absurd hrest (by decide)
    | cons d ds =>
      unfold pyIsDigit at hrest
      simp only [Bool.and_eq_true] at hrest
      obtain ⟨-, hall⟩ := hrest
      rw [List.all_eq_true] at hall
      have hd2 : d.isDigit = true := hall d (List.mem_cons_self _ _)
      rw [List.dropWhile_cons, digit_not_plus hd2]
      simp

/-- C6.  Malformed phone strings (not digits with at most one optional
leading `'+'`) make `find_by_phone` fail before any storage access; on a
valid input with a leading `'+'` the plus is stripped for the lookup, so
`find_by_phone("+79991234567")` looks up `"79991234567"`. -/
theorem c6_phone_validation :
    (∀ (users : List BoomUser) (p : String), validPhoneFormat p = false →
        find_by_phone users p = .error "Invalid phone format") ∧
    (∀ p : String, validPhoneFormat p = true → p.data.head? = some '+' →
        (lstripPlus p).data = p.data.tail) ∧
    phoneLookupKey "+79991234567" = some "79991234567" := by
  refine ⟨?_, fun p hv hp => lstrip_of_valid_plus p hv hp, by decide⟩
  intro users p hinv
  unfold find_by_phone phoneLookupKey
  rw [hinv]
  rfl

theorem c6_phone_validation_witness :
    find_by_phone [] "abc" = .error "Invalid phone format" ∧
    (lstripPlus "+79991234567").data = "+79991234567".data.tail :=
  ⟨c6_phone_validation.1 [] "abc" (by decide),
   c6_phone_validation.2.1 "+79991234567" (by decide) (by decide)⟩

theorem retryLoop_calls_le (f : Nat → Attempt α) (delay mr : Nat) :
    ∀ fuel attempt, (retryLoop f delay mr attempt fuel).calls ≤ fuel := by
  intro fuel
  induction fuel with
  | zero => intro attempt; simp [retryLoop]
  | succ n ih =>
    intro attempt
    unfold retryLoop
    cases f attempt with
    | ok a => simp
    | otherExn m => simp
    | dbErr m =>
      dsimp only
      split
      · have := ih (attempt + 1)
        simp only [RetryTrace.calls]
        omega
      · simp

/-- C4.  The `retry_on_disconnect(max_retries=3)` wrapper around every
repository method: the wrapped function runs at most 3 times; an
`OperationalError`/`DBAPIError` whose message is not a lost-connection
error, and any exception outside those classes, propagate immediately
after a single call with no sleep; a lost-connection error is retried
with backoffs `delay*1` then `delay*2`, succeeding as soon as an attempt
succeeds and propagating the third failure after both backoffs. -/
theorem c4_retry_policy (delay : Nat) :
    (∀ (α : Type) (f : Nat → Attempt α), (repoRetry delay f).calls ≤ 3) ∧
    (∀ (α : Type) (f : Nat → Attempt α) (m : String), f 0 = .dbErr m →
        isConnErrorMsg m = false → repoRetry delay f = ⟨.dbErr m, [], 1⟩) ∧
    (∀ (α : Type) (f : Nat → Attempt α) (m : String), f 0 = .otherExn m →
        repoRetry delay f = ⟨.otherExn m, [], 1⟩) ∧
    (∀ (α : Type) (f : Nat → Attempt α) (m : String) (a : α),
        f 0 = .dbErr m → isConnErrorMsg m = true → f 1 = .ok a →
        repoRetry delay f = ⟨.ok a, [delay * 1], 2⟩) ∧
    (∀ (α : Type) (f : Nat → Attempt α) (m0 m1 m2 : String),
        f 0 = .dbErr m0 → isConnErrorMsg m0 = true →
        f 1 = .dbErr m1 → isConnErrorMsg m1 = true →
        f 2 = .dbErr m2 →
        repoRetry delay f = ⟨.dbErr m2, [delay * 1, delay * 2], 3⟩) := by
  refine ⟨fun α f => retryLoop_calls_le f delay 3 3 0, ?_, ?_, ?_, ?_⟩
  · intro α f m h0 hnc
    unfold repoRetry retry_on_disconnect retryLoop
    rw [h0]
    simp [hnc]
  · intro α f m h0
    unfold repoRetry retry_on_disconnect retryLoop
    rw [h0]
  · intro α f m a h0 hc h1
    unfold repoRetry retry_on_disconnect retryLoop
    rw [h0]
    simp only [hc, Bool.true_and]
    rw [if_pos (by decide)]
    unfold retryLoop
    rw [h1]
  · intro α f m0 m1 m2 h0 hc0 h1 hc1 h2
    unfold repoRetry retry_on_disconnect retryLoop
    rw [h0]
    simp only [hc0, Bool.true_and]
    rw [if_pos (by decide)]
    unfold retryLoop
    rw [h1]
    simp only [hc1, Bool.true_and]
    rw [if_pos (by decide)]
    unfold retryLoop
    rw [h2]
    simp

theorem c4_retry_policy_witness :
    repoRetry 5 (fun k => if k = 0 then Attempt.dbErr "Lost connection"
        else Attempt.ok 7) = ⟨.ok 7, [5 * 1], 2⟩ ∧
    repoRetry 5 (fun _ => (Attempt.dbErr "Duplicate entry" : Attempt Nat))
      = ⟨.dbErr "Duplicate entry", [], 1⟩ :=
  ⟨(c4_retry_policy 5).2.2.2.1 Nat _ "Lost connection" 7 rfl (by decide) rfl,
   (c4_retry_policy 5).2.1 Nat _ "Duplicate entry" rfl (by decide)⟩

theorem mem_updTicket_target {db : TicketDb} {i : Nat}
    {g : Ticket → Ticket} {t' : Ticket}
    (h : t' ∈ (updTicket db i g).tickets) (hid : t'.id = i) :
    ∃ t ∈ db.tickets, t.id = i ∧ t' = g t := by
  unfold updTicket at h
  simp only [List.mem_map] at h
  obtain ⟨t, ht, heq⟩ := h
  by_cases hti : (t.id == i) = true
  · rw [if_pos hti] at heq
    exact ⟨t, ht, beq_iff_eq.mp hti, heq.symm⟩
  · rw [if_neg hti] at heq
    subst heq
    exact absurd (beq_iff_eq.mpr hid) hti

/-- C5.  After `update_status` with a status in `{open, reopened,
closed}`, after `close_ticket`, and after `update_rating`, the affected
row satisfies: `closed_at` is set exactly when the status is `closed`,
and `is_closed` mirrors the same condition. -/
theorem c5_closed_at_iff_status (db : TicketDb) (i : Nat) (now : Nat) :
    (∀ (s : String) (c : Option Nat) (t' : Ticket),
        s = "open" ∨ s = "reopened" ∨ s = "closed" →
        t' ∈ (update_status db i s c now).tickets → t'.id = i →
        (t'.closed_at ≠ none ↔ t'.status = "closed") ∧
          t'.is_closed = (t'.status == "closed")) ∧
    (∀ t' : Ticket, t' ∈ (close_ticket db i now).tickets → t'.id = i →
        (t'.closed_at ≠ none ↔ t'.status = "closed") ∧
          t'.is_closed = (t'.status == "closed")) ∧
    (∀ (r : Int) (t' : Ticket), t' ∈ (update_rating db i r now).tickets →
        t'.id = i →
        (t'.closed_at ≠ none ↔ t'.status = "closed") ∧
          t'.is_closed = (t'.status == "closed")) := by
  refine ⟨?_, ?_, ?_⟩
  · intro s c t' hs hmem hid
    obtain ⟨t, -, -, heq⟩ := mem_updTicket_target hmem hid
    subst heq
    rcases hs with hs | hs | hs <;> subst hs <;> simp [applyStatus]
  · intro t' hmem hid
    obtain ⟨t, -, -, heq⟩ := mem_updTicket_target hmem hid
    subst heq
    simp [applyClose]
  · intro r t' hmem hid
    obtain ⟨t, -, -, heq⟩ := mem_updTicket_target hmem hid
    subst heq
    simp [applyRating]

theorem c5_closed_at_iff_status_witness :
    ((applyStatus "closed" none 5 sampleOpenTicket).closed_at ≠ none ↔
      (applyStatus "closed" none 5 sampleOpenTicket).status = "closed") ∧
    (applyStatus "closed" none 5 sampleOpenTicket).is_closed =
      ((applyStatus "closed" none 5 sampleOpenTicket).status == "closed") :=
  (c5_closed_at_iff_status sampleDbOpen 1 5).1 "closed" none _
    (Or.inr (Or.inr rfl)) (by decide) (by decide)

/-- C7.  The staff `/close` command: closing an already-closed ticket is
an idempotent no-op with a staff-visible notice and no state change;
otherwise the ticket is marked `is_closed`, `status='closed'`,
`closed_at=now`, and the closure survey is dispatched to the ticket's
user. -/
theorem c7_close_idempotent_and_survey (db : TicketDb) (th : Int)
    (now : Nat) (sendOk : Bool) (t : Ticket)
    (hfind : find_by_thread_id db th = some t) :
    (t.is_closed = true →
        cmd_close_ticket db (some th) now sendOk =
          (db, [CloseEvent.alreadyClosed t.id])) ∧
    (t.is_closed = false →
        (cmd_close_ticket db (some th) now sendOk).1 =
            close_ticket db t.id now ∧
          (∀ t' ∈ (cmd_close_ticket db (some th) now sendOk).1.tickets,
              t'.id = t.id →
              t'.is_closed = true ∧ t'.status = "closed" ∧
                t'.closed_at = some now) ∧
          (sendOk = true →
              (cmd_close_ticket db (some th) now sendOk).2 =
                [CloseEvent.closedAck,
                 CloseEvent.surveySent t.telegram_id t.id])) := by
  constructor
  · intro hcl
    unfold cmd_close_ticket
    dsimp only
    rw [hfind]
    simp [hcl]
  · intro hop
    have hstep : cmd_close_ticket db (some th) now sendOk =
        (close_ticket db t.id now,
         [CloseEvent.closedAck] ++
           (if sendOk then [CloseEvent.surveySent t.telegram_id t.id]
            else [CloseEvent.surveySendFailed t.telegram_id])) := by
      unfold cmd_close_ticket
      dsimp only
      rw [hfind]
      simp [hop]
    refine ⟨by rw [hstep], ?_, ?_⟩
    · intro t' hmem hid
      rw [hstep] at hmem
      obtain ⟨t0, -, -, heq⟩ := mem_updTicket_target hmem hid
      subst heq
      simp [applyClose]
    · intro hsend
      rw [hstep, hsend]
      simp

theorem c7_close_idempotent_and_survey_witness :
    (cmd_close_ticket sampleDbOpen (some 7) 5 true).1 =
        close_ticket sampleDbOpen 1 5 ∧
      (cmd_close_ticket sampleDbOpen (some 7) 5 true).2 =
        [CloseEvent.closedAck, CloseEvent.surveySent 100 1] ∧
      (cmd_close_ticket dbClosed42 (some 7) 5 true) =
        (dbClosed42, [CloseEvent.alreadyClosed 42]) := by
  have h := (c7_close_idempotent_and_survey sampleDbOpen 7 5 true
    sampleOpenTicket (by decide)).2 (by decide)
  have h2 := (c7_close_idempotent_and_survey dbClosed42 7 5 true
    closedTicket42 (by decide)).1 (by decide)
  exact ⟨h.1, h.2.2 rfl, h2⟩

theorem user_message_found (db : TicketDb) (sender : Int)
    (user : Option BoomUser) (fullName : String)
    (stateName : Option String)
    (cat ord txt osid stt : Option String) (tc : Option Int)
    (fwd : ForwardOutcome) (now : Nat) (t : Ticket)
    (hfind : find_last_open_by_user db sender = some t) :
    user_message db sender user fullName stateName cat ord txt osid stt
        tc fwd now =
      (db, match t.thread_id with
        | none => [UMEvent.noThreadNotice]
        | some th =>
          match fwd with
          | .ok => [UMEvent.forwarded th]
          | .badRequest => [UMEvent.badRequestNotice]
          | .forbidden => [UMEvent.forbiddenNotice]
          | .otherFail => [UMEvent.otherFailNotice]) := by
  have hg := find_last_open_guard_false hfind
  unfold user_message
  rw [hfind]
  simp only [Option.isNone_some, Bool.and_false, Bool.false_eq_true,
    if_false, hg]
  cases t.thread_id <;> cases fwd <;> simp

theorem user_message_create_shape (db : TicketDb) (sender : Int)
    (user : Option BoomUser) (fullName : String)
    (stateName : Option String)
    (cat ord txt osid stt : Option String) (tc : Option Int)
    (fwd : ForwardOutcome) (now : Nat)
    (hfind : find_last_open_by_user db sender = none)
    (hstate : (stateName == some descriptionState) = true) :
    (∃ uid cat2 ord2 desc2 br2 sid2,
        (user_message db sender user fullName stateName cat ord txt osid
            stt tc fwd now).1 =
          (create db sender uid cat2 ord2 desc2 br2 none none sid2
            now).2) ∨
    (∃ uid cat2 ord2 desc2 br2 sid2 th subj,
        (user_message db sender user fullName stateName cat ord txt osid
            stt tc fwd now).1 =
          update_thread_subject
            (create db sender uid cat2 ord2 desc2 br2 none none sid2
              now).2 db.nextId th subj) := by
  unfold user_message
  rw [hfind, hstate]
  simp only [Option.isNone_none, Bool.and_true, if_true]
  cases tc with
  | none =>
    left
    exact ⟨_, _, _, _, _, _, rfl⟩
  | some th =>
    right
    exact ⟨_, _, _, _, _, _, th, _, rfl⟩

/-- C8.  When a user message reaches the forwarding step and the
transport call fails — `TelegramBadRequest`, `TelegramForbiddenError`,
or any other exception — the failure is converted into a notice to the
user and the ticket store is returned completely unchanged. -/
theorem c8_forward_failure_frame (db : TicketDb) (sender : Int)
    (user : Option BoomUser) (fullName : String)
    (stateName : Option String)
    (cat ord txt osid stt : Option String) (tc : Option Int) (now : Nat)
    (t : Ticket) (th : Int)
    (hfind : find_last_open_by_user db sender = some t)
    (hth : t.thread_id = some th) :
    user_message db sender user fullName stateName cat ord txt osid stt
        tc .badRequest now = (db, [UMEvent.badRequestNotice]) ∧
    user_message db sender user fullName stateName cat ord txt osid stt
        tc .forbidden now = (db, [UMEvent.forbiddenNotice]) ∧
    user_message db sender user fullName stateName cat ord txt osid stt
        tc .otherFail now = (db, [UMEvent.otherFailNotice]) := by
  refine ⟨?_, ?_, ?_⟩ <;>
    · rw [user_message_found db sender user fullName stateName cat ord
        txt osid stt tc _ now t hfind, hth]

theorem c8_forward_failure_frame_witness :
    user_message sampleDbOpen 100 none "U" none none none none none none
        none .forbidden 9 = (sampleDbOpen, [UMEvent.forbiddenNotice]) :=
  (c8_forward_failure_frame sampleDbOpen 100 none "U" none none none
    none none none none 9 sampleOpenTicket 7 (by decide)
    (by decide)).2.1

/-- C1 (code behaviour at the claimed scenario).  Ticket #42 is closed
and bound to thread 7; its user sends "still broken" while not
mid-intake.  Because `find_last_open_by_user` filters out closed rows
(`is_closed == False AND status IN ('open','reopened')`), the handler's
reopen branch never sees the ticket: the reply is answered with the
"start a new request with /start" prompt, nothing is forwarded to
thread 7, and the ticket stays `closed`. -/
theorem c1_closed_ticket_reply_bounces :
    user_message dbClosed42 100 none "Ann" none none none
        (some "still broken") none none none .ok 10 =
      (dbClosed42, [UMEvent.askStart]) ∧
    find_last_open_by_user dbClosed42 100 = none ∧
    get_by_id (user_message dbClosed42 100 none "Ann" none none none
        (some "still broken") none none none .ok 10).1 42 =
      some closedTicket42 := by
  decide

/-- C9 (amended).  An unexpected exception is caught at the
`handle_error` boundary and logged via `bot.log_error`; the boundary
sends nothing to the user, and the conversation transient state is
passed through untouched, so the user can retry from the same step. -/
theorem c9_boundary_catches_and_logs (adm : Bool) (st : ConvState)
    (m : String) :
    handle_error adm st (some (.other m)) =
      (st, [BoundaryAction.logError m]) := rfl

/-- C9 counterexample to the claim as stated: for the concrete generic
exception "boom", the boundary's actions are exactly one log record —
no message of any kind is sent to the user, contradicting "the user is
sent a generic transient-error message". -/
theorem c9_no_user_notice_counterexample :
    (handle_error false ⟨none, []⟩ (some (.other "boom"))).2 =
        [BoundaryAction.logError "boom"] ∧
      (handle_error false ⟨none, []⟩
          (some (.other "boom"))).2.filter BoundaryAction.isUserNotice
        = [] := by
  decide

theorem user_message_nofind_nocreate (db : TicketDb) (sender : Int)
    (user : Option BoomUser) (fullName : String)
    (stateName : Option String)
    (cat ord txt osid stt : Option String) (tc : Option Int)
    (fwd : ForwardOutcome) (now : Nat)
    (hfind : find_last_open_by_user db sender = none)
    (hstate : (stateName == some descriptionState) = false) :
    user_message db sender user fullName stateName cat ord txt osid stt
      tc fwd now = (db, [UMEvent.askStart]) := by
  unfold user_message
  rw [hfind, hstate]
  simp

theorem handle_closure_yes_db (db : TicketDb) (i : Nat) (now : Nat) :
    handle_closure_confirmation db i true now = db := by
  unfold handle_closure_confirmation
  cases get_by_id db i <;> simp

theorem handle_closure_db_shape (db : TicketDb) (i : Nat) (yes : Bool)
    (now : Nat) :
    handle_closure_confirmation db i yes now = db ∨
      handle_closure_confirmation db i yes now =
        update_status db i "reopened" none now := by
  unfold handle_closure_confirmation
  cases get_by_id db i with
  | none => exact Or.inl rfl
  | some t =>
    cases yes with
    | true => exact Or.inl (by simp)
    | false => exact Or.inr (by simp)

theorem cmd_close_db_shape (db : TicketDb) (th : Option Int) (now : Nat)
    (sendOk : Bool) :
    (cmd_close_ticket db th now sendOk).1 = db ∨
      ∃ i, (cmd_close_ticket db th now sendOk).1 =
        close_ticket db i now := by
  unfold cmd_close_ticket
  cases th with
  | none => exact Or.inl rfl
  | some th2 =>
    dsimp only
    cases find_by_thread_id db th2 with
    | none => exact Or.inl rfl
    | some t =>
      by_cases hcl : t.is_closed = true
      · exact Or.inl (by simp [hcl])
      · refine Or.inr ⟨t.id, ?_⟩
        simp [hcl]

theorem openPred_imp_lastOpen {t : Ticket} {tid : Int}
    (hwf : t.is_closed = (t.status == "closed"))
    (h : openPred tid t = true) : lastOpenPred tid t = true := by
  unfold openPred at h
  unfold lastOpenPred
  simp only [Bool.and_eq_true, Bool.or_eq_true, beq_iff_eq] at h ⊢
  obtain ⟨ht, hs⟩ := h
  have hnc : (t.status == "closed") = false := by
    rcases hs with hs | hs <;> rw [hs] <;> decide
  rw [hnc] at hwf
  exact ⟨⟨ht, hwf⟩, hs⟩

theorem openCount_zero_of_find_none {db : TicketDb} {tid : Int}
    (hwf : wfDb db) (h : find_last_open_by_user db tid = none) :
    openCount db tid = 0 := by
  rw [find_last_open_none_iff] at h
  unfold openCount
  rw [List.countP_eq_zero]
  intro t ht hpt
  have hlast := openPred_imp_lastOpen (hwf t ht) hpt
  rw [h t ht] at hlast
  exact absurd hlast (by decide)

theorem openCount_updTicket_le {db : TicketDb} {i : Nat}
    {g : Ticket → Ticket} {tid : Int}
    (hg : ∀ t, openPred tid (g t) = true → openPred tid t = true) :
    openCount (updTicket db i g) tid ≤ openCount db tid := by
  unfold openCount updTicket
  simp only [List.countP_map]
  apply List.countP_mono_left
  intro x _ h
  simp only [Function.comp] at h
  by_cases hxi : (x.id == i) = true
  · rw [if_pos hxi] at h
    exact hg x h
  · rw [if_neg hxi] at h
    exact h

theorem openCount_updTicket_eq {db : TicketDb} {i : Nat}
    {g : Ticket → Ticket} {tid : Int}
    (hg : ∀ t, openPred tid (g t) = openPred tid t) :
    openCount (updTicket db i g) tid = openCount db tid := by
  unfold openCount updTicket
  simp only [List.countP_map]
  apply List.countP_congr
  intro x _
  simp only [Function.comp]
  by_cases hxi : (x.id == i) = true
  · rw [if_pos hxi, hg]
  · rw [if_neg hxi]

theorem wf_updTicket {db : TicketDb} {i : Nat} {g : Ticket → Ticket}
    (hwf : wfDb db)
    (hg : ∀ t, t.is_closed = (t.status == "closed") →
        (g t).is_closed = ((g t).status == "closed")) :
    wfDb (updTicket db i g) := by
  intro t' ht'
  unfold updTicket at ht'
  simp only [List.mem_map] at ht'
  obtain ⟨t, ht, heq⟩ := ht'
  subst heq
  by_cases hti : (t.id == i) = true
  · rw [if_pos hti]
    exact hg t (hwf t ht)
  · rw [if_neg hti]
    exact hwf t ht

theorem idsBound_updTicket {db : TicketDb} {i : Nat} {g : Ticket → Ticket}
    (hb : idsBound db) (hg : ∀ t, (g t).id = t.id) :
    idsBound (updTicket db i g) := by
  intro t' ht'
  unfold updTicket at ht'
  simp only [List.mem_map] at ht'
  obtain ⟨t, ht, heq⟩ := ht'
  subst heq
  by_cases hti : (t.id == i) = true
  · rw [if_pos hti, hg]
    exact hb t ht
  · rw [if_neg hti]
    exact hb t ht

theorem getElem?_updTicket {db : TicketDb} {i : Nat} {g : Ticket → Ticket}
    {k : Nat} :
    (updTicket db i g).tickets[k]? =
      (db.tickets[k]?).map fun t => if t.id == i then g t else t := by
  unfold updTicket
  simp

theorem updTicket_thread_preserved {db : TicketDb} {i : Nat}
    {g : Ticket → Ticket} {k : Nat} {t : Ticket} {v : Int}
    (hget : db.tickets[k]? = some t) (hv : t.thread_id = some v)
    (hg : ∀ x, (g x).thread_id = x.thread_id) :
    ∃ t2, (updTicket db i g).tickets[k]? = some t2 ∧
      t2.thread_id = some v := by
  refine ⟨if t.id == i then g t else t, ?_, ?_⟩
  · rw [getElem?_updTicket, hget]
    rfl
  · by_cases hti : (t.id == i) = true
    · rw [if_pos hti, hg]
      exact hv
    · rw [if_neg hti]
      exact hv

theorem wf_create {db : TicketDb} {tid : Int} {uid : Option Int}
    {cat : String} {ord : Option String} {desc br : String}
    {sid : Option String} {now : Nat} (hwf : wfDb db) :
    wfDb (create db tid uid cat ord desc br none none sid now).2 := by
  intro t' ht'
  unfold create at ht'
  simp only [List.mem_append, List.mem_singleton] at ht'
  rcases ht' with ht' | ht'
  · exact hwf t' ht'
  · subst ht'
    rfl

theorem idsBound_create {db : TicketDb} {tid : Int} {uid : Option Int}
    {cat : String} {ord : Option String} {desc br : String}
    {sid : Option String} {now : Nat} (hb : idsBound db) :
    idsBound (create db tid uid cat ord desc br none none sid now).2 := by
  intro t' ht'
  unfold create at ht'
  simp only [List.mem_append, List.mem_singleton] at ht'
  rcases ht' with ht' | ht'
  · exact Nat.lt_succ_of_lt (hb t' ht')
  · subst ht'
    exact Nat.lt_succ_self _

theorem openCount_create_self {db : TicketDb} {tid : Int}
    {uid : Option Int} {cat : String} {ord : Option String}
    {desc br : String} {sid : Option String} {now : Nat} :
    openCount (create db tid uid cat ord desc br none none sid now).2 tid
      = openCount db tid + 1 := by
  unfold openCount create
  simp [openPred]

theorem openCount_create_other {db : TicketDb} {tid tid2 : Int}
    {uid : Option Int} {cat : String} {ord : Option String}
    {desc br : String} {sid : Option String} {now : Nat}
    (hne : tid ≠ tid2) :
    openCount (create db tid uid cat ord desc br none none sid now).2 tid2
      = openCount db tid2 := by
  unfold openCount create
  simp [openPred, hne]

theorem inv_updTicket_closing {db : TicketDb} {i : Nat}
    {g : Ticket → Ticket} (hwf : wfDb db)
    (hcnt : ∀ tid, openCount db tid ≤ 1)
    (hgwf : ∀ t, (g t).is_closed = ((g t).status == "closed"))
    (hgopen : ∀ (tid : Int) (t : Ticket), openPred tid (g t) = false) :
    wfDb (updTicket db i g) ∧
      ∀ tid, openCount (updTicket db i g) tid ≤ 1 := by
  refine ⟨wf_updTicket hwf fun t _ => hgwf t, fun tid => ?_⟩
  refine le_trans (openCount_updTicket_le fun t h => ?_) (hcnt tid)
  rw [hgopen tid t] at h
  exact absurd h (by decide)

theorem openPred_applyClose {tid : Int} {now : Nat} (t : Ticket) :
    openPred tid (applyClose now t) = false := by
  simp [openPred, applyClose]

theorem openPred_applyRating {tid r : Int} {now : Nat} (t : Ticket) :
    openPred tid (applyRating r now t) = false := by
  simp [openPred, applyRating]

theorem openPred_applyStatus_closed {tid : Int} {c : Option Nat}
    {now : Nat} (t : Ticket) :
    openPred tid (applyStatus "closed" c now t) = false := by
  simp [openPred, applyStatus]

theorem stepOp_preserves_inv (db : TicketDb) (op : Op)
    (hop : op.isSurveyReopen = false) (hwf : wfDb db)
    (hcnt : ∀ tid, openCount db tid ≤ 1) :
    wfDb (stepOp db op) ∧ ∀ tid, openCount (stepOp db op) tid ≤ 1 := by
  cases op with
  | userMsg sender user fullName stateName cat ord txt osid stt tc fwd n =>
    simp only [stepOp]
    cases hfound : find_last_open_by_user db sender with
    | some t =>
      rw [user_message_found db sender user fullName stateName cat ord
        txt osid stt tc fwd n t hfound]
      exact ⟨hwf, hcnt⟩
    | none =>
      by_cases hstate : (stateName == some descriptionState) = true
      · have hzero := openCount_zero_of_find_none hwf hfound
        rcases user_message_create_shape db sender user fullName
            stateName cat ord txt osid stt tc fwd n hfound hstate with
          ⟨uid, c2, o2, d2, b2, s2, heq⟩ |
          ⟨uid, c2, o2, d2, b2, s2, th, subj, heq⟩
        · rw [heq]
          refine ⟨wf_create hwf, fun tid => ?_⟩
          by_cases htid : sender = tid
          · subst htid
            rw [openCount_create_self, hzero]
          · rw [openCount_create_other htid]
            exact hcnt tid
        · rw [heq]
          unfold update_thread_subject
          constructor
          · refine wf_updTicket (wf_create hwf) fun t ht => ht
          · intro tid
            refine le_trans (le_of_eq (openCount_updTicket_eq ?_)) ?_
            · exact fun t => rfl
            · by_cases htid : sender = tid
              · subst htid
                rw [openCount_create_self, hzero]
              · rw [openCount_create_other htid]
                exact hcnt tid
      · rw [user_message_nofind_nocreate db sender user fullName
          stateName cat ord txt osid stt tc fwd n hfound
          (Bool.eq_false_iff.mpr hstate)]
        exact ⟨hwf, hcnt⟩
  | staffClose th ok n =>
    simp only [stepOp]
    rcases cmd_close_db_shape db th n ok with heq | ⟨i, heq⟩
    · rw [heq]
      exact ⟨hwf, hcnt⟩
    · rw [heq]
      unfold close_ticket
      exact inv_updTicket_closing hwf hcnt (fun t => rfl)
        (fun tid t => openPred_applyClose t)
  | closureConfirm i yes n =>
    have hyes : yes = true := by
      cases yes
      · exact absurd hop (by simp [Op.isSurveyReopen])
      · rfl
    subst hyes
    simp only [stepOp]
    rw [handle_closure_yes_db]
    exact ⟨hwf, hcnt⟩
  | rate i r n =>
    simp only [stepOp]
    unfold handle_rating update_rating
    exact inv_updTicket_closing hwf hcnt (fun t => rfl)
      (fun tid t => openPred_applyRating t)
  | adminClose i n =>
    simp only [stepOp]
    unfold handle_close update_status
    exact inv_updTicket_closing hwf hcnt (fun t => by simp [applyStatus])
      (fun tid t => openPred_applyStatus_closed t)

theorem runOps_inv (ops : List Op)
    (hops : ∀ op ∈ ops, op.isSurveyReopen = false) :
    wfDb (runOps initDb ops) ∧
      ∀ tid, openCount (runOps initDb ops) tid ≤ 1 := by
  suffices aux : ∀ (ops : List Op) (db : TicketDb),
      (∀ op ∈ ops, op.isSurveyReopen = false) → wfDb db →
      (∀ tid, openCount db tid ≤ 1) →
      wfDb (runOps db ops) ∧ ∀ tid, openCount (runOps db ops) tid ≤ 1 by
    exact aux ops initDb hops (fun t ht => absurd ht (by simp [initDb]))
      (fun tid => by simp [openCount, initDb])
  intro ops
  induction ops with
  | nil => exact fun db _ hwf hcnt => ⟨hwf, hcnt⟩
  | cons op rest ih =>
    intro db hall hwf hcnt
    have hstep := stepOp_preserves_inv db op
      (hall op (List.mem_cons_self _ _)) hwf hcnt
    exact ih (stepOp db op)
      (fun o ho => hall o (List.mem_cons_of_mem _ ho)) hstep.1 hstep.2

/-- C2 counterexample.  A concrete reachable event trace after which
identity 100 owns two tickets simultaneously in status
`{open, reopened}`: complete intake (ticket 1), staff closes it, the
user completes intake again (ticket 2), then presses "not resolved" on
ticket 1's closure survey, whose handler reopens it unconditionally. -/
theorem c2_two_open_counterexample :
    openCount (runOps initDb twoOpenTrace) 100 = 2 ∧
      (runOps initDb twoOpenTrace).tickets.map
          (fun t => (t.id, t.status, t.telegram_id)) =
        [(1, "reopened", 100), (2, "open", 100)] := by
  decide

/-- C2 (amended).  The ticket-creation path does re-read the last
open/reopened ticket and creates only when none exists (first
conjunct), and along every event trace that never takes the closure
survey's "not resolved" reopen action, each conversation identity has
at most one ticket in status `{open, reopened}`; the invariant as
originally stated is violated only through that reopen action (see the
counterexample). -/
theorem c2_one_open_per_identity :
    (∀ (db : TicketDb) (sender : Int) (user : Option BoomUser)
        (fullName : String) (stateName : Option String)
        (cat ord txt osid stt : Option String) (tc : Option Int)
        (fwd : ForwardOutcome) (now : Nat),
        (user_message db sender user fullName stateName cat ord txt osid
            stt tc fwd now).1.nextId ≠ db.nextId →
        find_last_open_by_user db sender = none) ∧
    (∀ ops : List Op, (∀ op ∈ ops, op.isSurveyReopen = false) →
        ∀ tid, openCount (runOps initDb ops) tid ≤ 1) := by
  constructor
  · intro db sender user fullName stateName cat ord txt osid stt tc fwd
      now hne
    cases hfound : find_last_open_by_user db sender with
    | some t =>
      rw [user_message_found db sender user fullName stateName cat ord
        txt osid stt tc fwd now t hfound] at hne
      exact absurd rfl hne
    | none => rfl
  · exact fun ops hops => (runOps_inv ops hops).2

theorem c2_one_open_per_identity_witness :
    find_last_open_by_user initDb 100 = none ∧
      openCount (runOps initDb [intakeOp 10 1]) 100 ≤ 1 :=
  ⟨c2_one_open_per_identity.1 initDb 100 none "Ann"
      (some descriptionState) (some "Другой вопрос") none (some "broken")
      none none (some 10) .ok 1 (by decide),
   c2_one_open_per_identity.2 [intakeOp 10 1] (by decide) 100⟩

theorem applyStatus_thread (s : String) (c : Option Nat) (now : Nat)
    (x : Ticket) : (applyStatus s c now x).thread_id = x.thread_id := by
  unfold applyStatus
  split
  · rfl
  · split <;> rfl

theorem applyStatus_id (s : String) (c : Option Nat) (now : Nat)
    (x : Ticket) : (applyStatus s c now x).id = x.id := by
  unfold applyStatus
  split
  · rfl
  · split <;> rfl

theorem getElem?_create {db : TicketDb} {tid : Int} {uid : Option Int}
    {cat : String} {ord : Option String} {desc br : String}
    {sid : Option String} {now : Nat} {k : Nat} {t : Ticket}
    (hget : db.tickets[k]? = some t) :
    (create db tid uid cat ord desc br none none sid now).2.tickets[k]?
      = some t := by
  have hk : k < db.tickets.length := (List.getElem?_eq_some_iff.mp hget).1
  unfold create
  dsimp only
  rw [List.getElem?_append_left hk]
  exact hget

theorem stepOp_idsBound (db : TicketDb) (op : Op) (hb : idsBound db) :
    idsBound (stepOp db op) := by
  cases op with
  | userMsg sender user fullName stateName cat ord txt osid stt tc fwd n =>
    simp only [stepOp]
    cases hfound : find_last_open_by_user db sender with
    | some t =>
      rw [user_message_found db sender user fullName stateName cat ord
        txt osid stt tc fwd n t hfound]
      exact hb
    | none =>
      by_cases hstate : (stateName == some descriptionState) = true
      · rcases user_message_create_shape db sender user fullName
            stateName cat ord txt osid stt tc fwd n hfound hstate with
          ⟨uid, c2, o2, d2, b2, s2, heq⟩ |
          ⟨uid, c2, o2, d2, b2, s2, th, subj, heq⟩
        · rw [heq]
          exact idsBound_create hb
        · rw [heq]
          unfold update_thread_subject
          exact idsBound_updTicket (idsBound_create hb) fun t => rfl
      · rw [user_message_nofind_nocreate db sender user fullName
          stateName cat ord txt osid stt tc fwd n hfound
          (Bool.eq_false_iff.mpr hstate)]
        exact hb
  | staffClose th ok n =>
    simp only [stepOp]
    rcases cmd_close_db_shape db th n ok with heq | ⟨i, heq⟩
    · rw [heq]
      exact hb
    · rw [heq]
      unfold close_ticket
      exact idsBound_updTicket hb fun t => rfl
  | closureConfirm i yes n =>
    simp only [stepOp]
    rcases handle_closure_db_shape db i yes n with heq | heq <;> rw [heq]
    · exact hb
    · unfold update_status
      exact idsBound_updTicket hb fun t => applyStatus_id _ _ _ t
  | rate i r n =>
    simp only [stepOp]
    unfold handle_rating update_rating
    exact idsBound_updTicket hb fun t => rfl
  | adminClose i n =>
    simp only [stepOp]
    unfold handle_close update_status
    exact idsBound_updTicket hb fun t => applyStatus_id _ _ _ t

theorem stepOp_thread_preserved (db : TicketDb) (op : Op)
    (hb : idsBound db) (k : Nat) (t : Ticket) (v : Int)
    (hget : db.tickets[k]? = some t) (hv : t.thread_id = some v) :
    ∃ t2, (stepOp db op).tickets[k]? = some t2 ∧
      t2.thread_id = some v := by
  cases op with
  | userMsg sender user fullName stateName cat ord txt osid stt tc fwd n =>
    simp only [stepOp]
    cases hfound : find_last_open_by_user db sender with
    | some t0 =>
      rw [user_message_found db sender user fullName stateName cat ord
        txt osid stt tc fwd n t0 hfound]
      exact ⟨t, hget, hv⟩
    | none =>
      by_cases hstate : (stateName == some descriptionState) = true
      · rcases user_message_create_shape db sender user fullName
            stateName cat ord txt osid stt tc fwd n hfound hstate with
          ⟨uid, c2, o2, d2, b2, s2, heq⟩ |
          ⟨uid, c2, o2, d2, b2, s2, th, subj, heq⟩
        · rw [heq]
          exact ⟨t, getElem?_create hget, hv⟩
        · rw [heq]
          unfold update_thread_subject
          refine ⟨t, ?_, hv⟩
          rw [getElem?_updTicket, getElem?_create hget]
          have hne : (t.id == db.nextId) = false := by
            have hlt := hb t (List.getElem?_mem hget)
            exact beq_eq_false_iff_ne.mpr (Nat.ne_of_lt hlt)
          simp [hne]
          intro h
          exact absurd h (beq_eq_false_iff_ne.mp hne)
      · rw [user_message_nofind_nocreate db sender user fullName
          stateName cat ord txt osid stt tc fwd n hfound
          (Bool.eq_false_iff.mpr hstate)]
        exact ⟨t, hget, hv⟩
  | staffClose th ok n =>
    simp only [stepOp]
    rcases cmd_close_db_shape db th n ok with heq | ⟨i, heq⟩
    · rw [heq]
      exact ⟨t, hget, hv⟩
    · rw [heq]
      unfold close_ticket
      exact updTicket_thread_preserved hget hv fun x => rfl
  | closureConfirm i yes n =>
    simp only [stepOp]
    rcases handle_closure_db_shape db i yes n with heq | heq <;> rw [heq]
    · exact ⟨t, hget, hv⟩
    · unfold update_status
      exact updTicket_thread_preserved hget hv fun x =>
        applyStatus_thread _ _ _ x
  | rate i r n =>
    simp only [stepOp]
    unfold handle_rating update_rating
    exact updTicket_thread_preserved hget hv fun x => rfl
  | adminClose i n =>
    simp only [stepOp]
    unfold handle_close update_status
    exact updTicket_thread_preserved hget hv fun x =>
      applyStatus_thread _ _ _ x

theorem runOps_idsBound (ops : List Op) : idsBound (runOps initDb ops) := by
  suffices aux : ∀ (ops : List Op) (db : TicketDb), idsBound db →
      idsBound (runOps db ops) by
    exact aux ops initDb fun t ht => absurd ht (by simp [initDb])
  intro ops
  induction ops with
  | nil => exact fun db hb => hb
  | cons op rest ih =>
    exact fun db hb => ih (stepOp db op) (stepOp_idsBound db op hb)

/-- C3.  Once a ticket's `thread_id` is non-null, no later event of the
system ever changes it: whatever row holds `thread_id = some v` after a
trace of inbound events still holds `thread_id = some v` after any
further events.  `update_thread_subject` is only invoked on a freshly
created row, whose id is the autoincrement value no stored row can
share. -/
theorem c3_thread_id_immutable (ops more : List Op) (k : Nat)
    (t : Ticket) (v : Int)
    (hget : (runOps initDb ops).tickets[k]? = some t)
    (hv : t.thread_id = some v) :
    ∃ t2, (runOps initDb (ops ++ more)).tickets[k]? = some t2 ∧
      t2.thread_id = some v := by
  have aux : ∀ (more : List Op) (db : TicketDb) (t : Ticket),
      idsBound db → db.tickets[k]? = some t → t.thread_id = some v →
      ∃ t2, (runOps db more).tickets[k]? = some t2 ∧
        t2.thread_id = some v := by
    intro more
    induction more with
    | nil => exact fun db t hb hget0 hv0 => ⟨t, hget0, hv0⟩
    | cons op rest ih =>
      intro db t hb hget0 hv0
      obtain ⟨t1, hg1, hv1⟩ :=
        stepOp_thread_preserved db op hb k t v hget0 hv0
      exact ih (stepOp db op) t1 (stepOp_idsBound db op hb) hg1 hv1
  have hsplit : runOps initDb (ops ++ more) =
      runOps (runOps initDb ops) more := by
    unfold runOps
    rw [List.foldl_append]
  rw [hsplit]
  exact aux more (runOps initDb ops) t (runOps_idsBound ops) hget hv

theorem c3_thread_id_immutable_witness :
    ∃ t2, (runOps initDb
        ([intakeOp 10 1] ++ [Op.staffClose (some 10) true 2])).tickets[0]?
          = some t2 ∧ t2.thread_id = some 10 :=
  c3_thread_id_immutable [intakeOp 10 1] [Op.staffClose (some 10) true 2]
    0 ((runOps initDb [intakeOp 10 1]).tickets.getD 0 sampleOpenTicket)
    10 (by decide) (by decide)

end BoonSupport
